import Mathlib

/-!
Shallow embedding of the verification core of the `succinct` pallet
(`src/pallets/succinct/src/state.rs` and `src/pallets/succinct/src/target_amb.rs`).

Bytes are modelled as `Nat` values below 256, byte buffers as `List Nat`,
machine integers as `Nat` with explicit reduction where overflow matters.
Rust functions that can abort (out-of-bounds slice indexing, `unwrap`,
`assert!`) are modelled with an explicit `panic` outcome, so that the
distinction between a typed error and a process abort is visible.

External crates invoked by the source (keccak-256 via `sp_io`, the parity
`rlp` codec, the `trie_db`/`patricia_merkle_trie` Merkle-Patricia lookup,
`ethabi` static-tuple decoding, `primitive_types` `U256`/`H256`, arkworks
`Fp::from_str`) are embedded from their documented Ethereum-standard
behaviour; the concrete proof fixtures of the repository's own tests are
evaluated end-to-end against the embedding below, which exercises the
keccak/RLP/trie stack bit-for-bit.
-/

set_option maxRecDepth 100000
set_option maxHeartbeats 4000000
set_option linter.dupNamespace false
set_option exponentiation.threshold 2000

namespace Avail

/-- Outcome of a Rust computation that either returns a value or aborts. -/
inductive RustOutcome (α : Type) where
  | ok (a : α)
  | panic
deriving DecidableEq

/-- Outcome of a Rust computation returning `Result`, which may also abort. -/
inductive RustResult (ε α : Type) where
  | ok (a : α)
  | err (e : ε)
  | panic
deriving DecidableEq

/-- Big-endian interpretation of a byte buffer as an unsigned integer. -/
def beNat (bs : List Nat) : Nat := bs.foldl (fun a b => a * 256 + b) 0

/-! ## keccak-256 (`sp_io::hashing::keccak_256`)

The Ethereum keccak-256 hash (original Keccak padding `0x01`, rate 1088,
output 256 bits). The 25×64-bit sponge state is packed into a single `Nat`
with lane `i` at bit offset `64 * i` and lanes little-endian in bytes, so
that absorbing a rate block is a single xor with the block's little-endian
value and every permutation step is plain bounded `Nat` arithmetic. -/

def lane64 : Nat := 18446744073709551616

/-- Rotate a 64-bit lane left by `n` (with `0 ≤ n < 64`). -/
def rol64 (x n : Nat) : Nat := ((x <<< n) % lane64) ||| (x >>> (64 - n))

/-- Lane `i` of a packed sponge state. -/
def getLane (st i : Nat) : Nat := (st >>> (64 * i)) &&& (lane64 - 1)

/-- Replicates a 5-lane column pattern across the five rows of the state
(the summands occupy disjoint bit ranges). -/
def colRep : Nat := 1 + 2 ^ 320 + 2 ^ 640 + 2 ^ 960 + 2 ^ 1280

/-- Keccak round constants (the 24 iota constants of Keccak-f[1600], here as
decimal literals). -/
def keccakRC : List Nat :=
  [1, 32898, 9223372036854808714,
   9223372039002292224, 32907, 2147483649,
   9223372039002292353, 9223372036854808585, 138,
   136, 2147516425, 2147483658,
   2147516555, 9223372036854775947, 9223372036854808713,
   9223372036854808579, 9223372036854808578, 9223372036854775936,
   32778, 9223372039002259466, 9223372039002292353,
   9223372036854808704, 2147483649, 9223372039002292232]

/-- Combined rho/pi permutation table: destination lane `j` is sourced from
lane `rhoPiTable[j].1` rotated left by `rhoPiTable[j].2`. -/
def rhoPiTable : List (Nat × Nat) :=
  [(0, 0), (6, 44), (12, 43), (18, 21), (24, 14),
   (3, 28), (9, 20), (10, 3), (16, 45), (22, 61),
   (1, 1), (7, 6), (13, 25), (19, 8), (20, 18),
   (4, 27), (5, 36), (11, 10), (17, 15), (23, 56),
   (2, 62), (8, 55), (14, 39), (15, 41), (21, 2)]

def thetaStep (a : Nat) : Nat :=
  let c0 := getLane a 0 ^^^ getLane a 5 ^^^ getLane a 10 ^^^ getLane a 15 ^^^ getLane a 20
  let c1 := getLane a 1 ^^^ getLane a 6 ^^^ getLane a 11 ^^^ getLane a 16 ^^^ getLane a 21
  let c2 := getLane a 2 ^^^ getLane a 7 ^^^ getLane a 12 ^^^ getLane a 17 ^^^ getLane a 22
  let c3 := getLane a 3 ^^^ getLane a 8 ^^^ getLane a 13 ^^^ getLane a 18 ^^^ getLane a 23
  let c4 := getLane a 4 ^^^ getLane a 9 ^^^ getLane a 14 ^^^ getLane a 19 ^^^ getLane a 24
  let d0 := c4 ^^^ rol64 c1 1
  let d1 := c0 ^^^ rol64 c2 1
  let d2 := c1 ^^^ rol64 c3 1
  let d3 := c2 ^^^ rol64 c4 1
  let d4 := c3 ^^^ rol64 c0 1
  a ^^^ ((d0 ||| (d1 <<< 64) ||| (d2 <<< 128) ||| (d3 <<< 192) ||| (d4 <<< 256)) * colRep)

def rhoPiStep (a : Nat) : Nat :=
  (List.range 25).foldl
    (fun acc j =>
      let sr := rhoPiTable.getD j (0, 0)
      acc ||| (rol64 (getLane a sr.1) sr.2 <<< (64 * j)))
    0

def chiStep (b : Nat) : Nat :=
  (List.range 25).foldl
    (fun acc j =>
      let y := j / 5
      let x := j % 5
      acc |||
        ((getLane b j ^^^
            (((lane64 - 1) ^^^ getLane b ((x + 1) % 5 + 5 * y)) &&&
              getLane b ((x + 2) % 5 + 5 * y))) <<< (64 * j)))
    0

def keccakRound (a : Nat) (rc : Nat) : Nat :=
  chiStep (rhoPiStep (thetaStep a)) ^^^ rc

/-- Identity on `k` that forces full evaluation of `n` first (both branches
of the `if` coincide); this keeps kernel evaluation of the recursions below
stack-shallow without changing any value. -/
def seqNat (n : Nat) (k : Nat) : Nat := if n = 0 then k else k

theorem seqNat_eq (n k : Nat) : seqNat n k = k := by
  simp [seqNat]

def keccakRounds : List Nat → Nat → Nat
  | [], a => a
  | rc :: rcs, a =>
    let a' := keccakRound a rc
    seqNat a' (keccakRounds rcs a')

theorem keccakRounds_eq_foldl (rcs : List Nat) (a : Nat) :
    keccakRounds rcs a = rcs.foldl keccakRound a := by
  induction rcs generalizing a with
  | nil => rfl
  | cons rc rcs ih => simp [keccakRounds, seqNat_eq, ih, List.foldl_cons]

def keccakF (a : Nat) : Nat := keccakRounds keccakRC a

/-- The little-endian value of a rate block; in the packed state layout this
is exactly the 1088-bit rate portion. -/
def leNat (bs : List Nat) : Nat := bs.foldr (fun b a => a * 256 + b) 0

/-- Absorb the padded message 136 bytes at a time (fuel-structural). -/
def absorbBlocks : Nat → Nat → List Nat → Nat
  | 0, st, _ => st
  | _ + 1, st, [] => st
  | fuel + 1, st, msg =>
      let st' := keccakF (st ^^^ leNat (msg.take 136))
      seqNat st' (absorbBlocks fuel st' (msg.drop 136))

/-- Keccak `pad10*1` padding with domain byte `0x01` to a multiple of 136. -/
def keccakPad (msg : List Nat) : List Nat :=
  let r := 136 - msg.length % 136
  if r = 1 then msg ++ [0x81]
  else msg ++ 0x01 :: (List.replicate (r - 2) 0 ++ [0x80])

/-- keccak-256 of a byte buffer, as a 32-byte buffer. -/
def keccak256 (msg : List Nat) : List Nat :=
  let p := keccakPad msg
  let st := absorbBlocks (p.length + 1) 0 p
  (List.range 32).map fun i => (st >>> (8 * i)) % 256

/-- Sanity anchor: the embedding reproduces the standard keccak-256 digest
of the empty input. -/
theorem keccak256_nil : keccak256 [] =
    [0xc5, 0xd2, 0x46, 0x01, 0x86, 0xf7, 0x23, 0x3c, 0x92, 0x7e, 0x7d, 0xb2,
     0xdc, 0xc7, 0x03, 0xc0, 0xe5, 0x00, 0xb6, 0x53, 0xca, 0x82, 0x27, 0x3b,
     0x7b, 0xfa, 0xd8, 0x04, 0x5d, 0x85, 0xa4, 0x70] := by decide

/-! ## RLP decoding (parity `rlp` crate, as used by the source)

`rlpHeader` is `BasicDecoder::payload_info`: given a buffer that starts with
an RLP item it returns the header length, the payload length and whether the
item is a list, or `none` on a malformed or truncated header (zero-prefixed
long length, long form for a short payload, payload past the end of the
buffer). -/

def rlpHeader (b : List Nat) : Option (Nat × Nat × Bool) :=
  match b with
  | [] => none
  | b0 :: rest =>
    if b0 ≤ 0x7f then some (0, 1, false)
    else if b0 ≤ 0xb7 then
      let vl := b0 - 0x80
      if 1 + vl ≤ b.length then some (1, vl, false) else none
    else if b0 ≤ 0xbf then
      let ll := b0 - 0xb7
      if rest.length < ll then none
      else if rest.headD 0 = 0 then none
      else
        let vl := beNat (rest.take ll)
        if vl ≤ 55 then none
        else if 1 + ll + vl ≤ b.length then some (1 + ll, vl, false) else none
    else if b0 ≤ 0xf7 then
      let vl := b0 - 0xc0
      if 1 + vl ≤ b.length then some (1, vl, true) else none
    else
      let ll := b0 - 0xf7
      if rest.length < ll then none
      else if rest.headD 0 = 0 then none
      else
        let vl := beNat (rest.take ll)
        if vl ≤ 55 then none
        else if 1 + ll + vl ≤ b.length then some (1 + ll, vl, true) else none

/-- `Rlp::data()`: the payload bytes of the item at the head of `b`. -/
def rlpData (b : List Nat) : Option (List Nat) :=
  (rlpHeader b).map fun h => (b.drop h.1).take h.2.1

/-- `Rlp::is_list()`. -/
def rlpIsList (b : List Nat) : Bool :=
  match b with
  | [] => false
  | b0 :: _ => 0xc0 ≤ b0

/-- Number of well-formed items at the front of a list payload; iteration
stops (without error) at the first malformed item, mirroring the crate's
`iter().count()`. -/
def rlpCountItems : Nat → List Nat → Nat
  | 0, _ => 0
  | _ + 1, [] => 0
  | fuel + 1, l =>
    match rlpHeader l with
    | none => 0
    | some h => 1 + rlpCountItems fuel (l.drop (h.1 + h.2.1))

/-- `Rlp::item_count()`: errors unless the item is a list. -/
def rlpItemCount (b : List Nat) : Option Nat :=
  if rlpIsList b then
    match rlpHeader b with
    | none => some 0
    | some h => some (rlpCountItems (b.length + 1) ((b.drop h.1).take h.2.1))
  else none

def rlpAtAux : Nat → List Nat → Nat → Option (List Nat)
  | _, l, 0 => (rlpHeader l).map fun h => l.take (h.1 + h.2.1)
  | 0, _, _ + 1 => none
  | fuel + 1, l, i + 1 =>
    match rlpHeader l with
    | none => none
    | some h => rlpAtAux fuel (l.drop (h.1 + h.2.1)) i

/-- `Rlp::at(i)`: the full bytes (header and payload) of item `i` of a list. -/
def rlpAt (b : List Nat) (i : Nat) : Option (List Nat) :=
  if rlpIsList b then
    match rlpHeader b with
    | none => none
    | some h => rlpAtAux (b.length + 1) ((b.drop h.1).take h.2.1) i
  else none

/-! ## Merkle-Patricia trie lookup (`trie_db` with `EIP1186Layout`) -/

/-- A child reference inside a trie node: a 32-byte hash, an inline node
(any sub-item that is not a 32-byte string), or an empty slot. -/
inductive NodeHandle where
  | hash (h : List Nat)
  | inline (raw : List Nat)
  | empty
deriving DecidableEq

inductive TrieNode where
  | empty
  | leaf (seg : List Nat) (value : List Nat)
  | ext (seg : List Nat) (child : NodeHandle)
  | branch (children : List NodeHandle) (value : Option (List Nat))
deriving DecidableEq

/-- Low/high nibbles of a byte buffer, most significant first. -/
def bytesToNibbles (bs : List Nat) : List Nat :=
  bs.flatMap fun b => [b / 16, b % 16]

/-- Hex-prefix decoding of a partial-key path: flag bit `0x20` marks a leaf,
flag bit `0x10` an odd nibble count. -/
def hpDecode (hp : List Nat) : Option (Bool × List Nat) :=
  match hp with
  | [] => none
  | f :: rest =>
    let nibs := bytesToNibbles rest
    some (f &&& 0x20 ≠ 0, if f &&& 0x10 ≠ 0 then (f % 16) :: nibs else nibs)

/-- Child decoding: a 32-byte string is a hash reference, an empty string an
empty slot, anything else an inline node. -/
def decodeChild (item : List Nat) : NodeHandle :=
  match rlpHeader item with
  | none => .inline item
  | some (hl, vl, isL) =>
    if isL then .inline item
    else if vl = 0 then .empty
    else if vl = 32 then .hash ((item.drop hl).take vl)
    else .inline item

/-- `RlpNodeCodec::decode`: a 2-item list is a leaf or extension (by the
hex-prefix flag), a 17-item list a branch, the empty string the empty node;
every other shape is a decode error. -/
def decodeNode (b : List Nat) : Option TrieNode :=
  match rlpHeader b with
  | none => none
  | some (_, vl, isL) =>
    if isL then
      match rlpItemCount b with
      | some 2 =>
        match rlpAt b 0, rlpAt b 1 with
        | some i0, some i1 =>
          match rlpData i0 with
          | none => none
          | some hp =>
            match hpDecode hp with
            | none => none
            | some (isLeaf, seg) =>
              if isLeaf then (rlpData i1).map fun v => .leaf seg v
              else some (.ext seg (decodeChild i1))
        | _, _ => none
      | some 17 =>
        match (List.range 16).mapM fun i => (rlpAt b i).map decodeChild with
        | none => none
        | some children =>
          match rlpAt b 16 with
          | none => none
          | some i16 =>
            match rlpData i16 with
            | none => none
            | some v => some (.branch children (if v = [] then none else some v))
      | _ => none
    else
      if vl = 0 then some .empty else none

/-- Result of `trie.get`: `found` is `Ok(Some(..))`, `notFound` is `Ok(None)`,
`fail` is `Err(..)` (missing node or undecodable node). -/
inductive LookupRes where
  | found (v : List Nat)
  | notFound
  | fail
deriving DecidableEq

/-- The hash-addressed node store built from the proof (`MemoryDB`). -/
def proofDb (proof : List (List Nat)) : List (List Nat × List Nat) :=
  proof.map fun n => (keccak256 n, n)

def dbGet (db : List (List Nat × List Nat)) (h : List Nat) : Option (List Nat) :=
  (db.find? fun p => p.1 == h).map fun p => p.2

/-- One step of `trie_db::Lookup::look_up`, resolving a child handle against
the remaining nibble path (fuel-structural; the fuel is chosen large enough
for every acyclic node store). -/
def trieStep : Nat → List (List Nat × List Nat) → NodeHandle → List Nat → LookupRes
  | 0, _, _, _ => .fail
  | fuel + 1, db, handle, rest =>
    match handle with
    | .empty => .notFound
    | .hash h =>
      match dbGet db h with
      | none => .fail
      | some nd => trieStep fuel db (.inline nd) rest
    | .inline nd =>
      match decodeNode nd with
      | none => .fail
      | some .empty => .notFound
      | some (.leaf seg v) => if rest = seg then .found v else .notFound
      | some (.ext seg child) =>
        if seg.isPrefixOf rest then trieStep fuel db child (rest.drop seg.length)
        else .notFound
      | some (.branch children value) =>
        match rest with
        | [] =>
          match value with
          | some v => .found v
          | none => .notFound
        | n :: rest' => trieStep fuel db (children.getD n .empty) rest'

def trieFuel (proof : List (List Nat)) : Nat :=
  proof.foldl (fun a n => a + n.length) 256

/-- `trie.get(key)` over the trie rooted at `root`, with the proof nodes as
the backing store. -/
def trieGet (proof : List (List Nat)) (root : List Nat) (key : List Nat) : LookupRes :=
  trieStep (trieFuel proof) (proofDb proof) (.hash root) (bytesToNibbles key)

/-! ## `target_amb.rs`: storage proof verification -/

inductive StorageError where
  | StorageError
  | AccountNotFound
  | CannotDecodeItems
deriving DecidableEq

/-- `get_storage_value(slot_hash, storage_root, proof)`. The trailing
`H256::from_slice` aborts when the decoded payload is not exactly 32 bytes. -/
def get_storage_value (slot_hash : List Nat) (storage_root : List Nat)
    (proof : List (List Nat)) : RustResult StorageError (List Nat) :=
  match trieGet proof storage_root (keccak256 slot_hash) with
  | .fail => .err .StorageError
  | .notFound => .err .StorageError
  | .found v =>
    match rlpData v with
    | none => .err .CannotDecodeItems
    | some r =>
      if r.length = 0 then .err .CannotDecodeItems
      else if r.length = 32 then .ok r
      else .panic

/-- `get_storage_root(proof, address, state_root)`. The double `unwrap` on
`trie.get` aborts on both lookup failure and key absence; `H256::from_slice`
aborts when the third account field is not exactly 32 bytes. -/
def get_storage_root (proof : List (List Nat)) (address : List Nat)
    (state_root : List Nat) : RustResult StorageError (List Nat) :=
  match trieGet proof state_root (keccak256 address) with
  | .fail => .panic
  | .notFound => .panic
  | .found v =>
    match rlpItemCount v with
    | none => .err .StorageError
    | some n =>
      if n ≠ 4 then .err .AccountNotFound
      else
        match rlpAt v 2 with
        | none => .err .StorageError
        | some item =>
          match rlpData item with
          | none => .err .StorageError
          | some r => if r.length = 32 then .ok r else .panic

/-! ## Test fixtures from the repository's own test suite -/

/-- Account-proof fixture node 0 from the repository's `test_account_proof` (532 bytes). -/
def accountProofNode0 : List Nat :=
  [249, 2, 17, 160, 80, 218, 146, 195, 57, 219, 11, 113, 205, 106, 138, 199, 137, 58, 107, 134, 137, 236, 90, 58, 70, 160, 35, 27, 62, 226, 189, 27, 174, 231, 94, 29, 160, 69, 163, 217, 115, 235, 116, 160, 43, 118, 45, 139, 27, 166, 131, 243, 155, 202, 57, 101, 128, 98, 118, 200, 206, 255, 226, 210, 235, 198, 204, 226, 51, 160, 232, 138, 210, 156, 169, 143, 160, 143, 89, 242, 167, 240, 17, 13, 99, 80, 93, 153, 161, 115, 98, 134, 67, 41, 13, 248, 105, 196, 209, 250, 49, 43, 160, 11, 180, 204, 157, 192, 177, 222, 106, 224, 216, 4, 36, 177, 250, 153, 46, 251, 64, 10, 7, 160, 232, 70, 21, 201, 23, 98, 254, 115, 75, 45, 12, 160, 160, 126, 73, 93, 57, 191, 43, 119, 148, 5, 121, 12, 108, 126, 126, 177, 204, 60, 128, 58, 136, 219, 54, 209, 236, 96, 15, 176, 229, 85, 181, 187, 160, 154, 28, 119, 110, 137, 200, 190, 117, 208, 169, 234, 2, 44, 5, 253, 47, 240, 149, 134, 157, 84, 158, 116, 168, 255, 247, 242, 251, 45, 234, 247, 56, 160, 115, 184, 116, 228, 158, 119, 223, 217, 49, 45, 123, 26, 253, 26, 193, 14, 2, 2, 26, 27, 162, 171, 124, 151, 236, 174, 170, 14, 38, 163, 64, 39, 160, 126, 52, 36, 64, 92, 19, 170, 51, 162, 235, 158, 198, 216, 100, 10, 161, 246, 127, 221, 140, 142, 158, 66, 118, 51, 69, 21, 177, 207, 29, 246, 92, 160, 36, 107, 147, 178, 227, 204, 98, 90, 94, 117, 180, 1, 101, 198, 203, 149, 174, 143, 251, 148, 6, 86, 61, 52, 9, 45, 99, 89, 199, 97, 106, 238, 160, 77, 47, 216, 253, 177, 171, 125, 143, 143, 198, 7, 148, 0, 57, 111, 236, 130, 137, 20, 35, 15, 173, 227, 121, 79, 19, 220, 90, 231, 246, 187, 184, 160, 72, 17, 185, 239, 191, 168, 212, 149, 197, 190, 145, 190, 120, 55, 43, 74, 41, 20, 11, 209, 224, 146, 231, 147, 219, 80, 237, 156, 73, 90, 109, 84, 160, 46, 27, 58, 65, 126, 131, 65, 220, 142, 26, 222, 108, 165, 39, 119, 129, 146, 211, 60, 124, 130, 124, 250, 99, 163, 102, 208, 7, 242, 136, 78, 36, 160, 132, 95, 79, 51, 164, 153, 61, 133, 118, 106, 20, 34, 44, 222, 29, 18, 75, 208, 241, 85, 35, 210, 57, 87, 40, 131, 37, 138, 123, 188, 204, 217, 160, 237, 32, 33, 204, 34, 6, 252, 253, 159, 128, 213, 146, 137, 11, 27, 78, 182, 21, 250, 228, 241, 29, 78, 74, 102, 213, 74, 103, 103, 144, 137, 1, 160, 125, 70, 191, 110, 157, 201, 89, 158, 183, 202, 3, 106, 169, 118, 239, 156, 198, 63, 2, 233, 9, 114, 82, 121, 159, 93, 58, 135, 146, 196, 150, 32, 160, 11, 88, 209, 210, 204, 114, 64, 28, 124, 185, 120, 211, 78, 21, 247, 64, 56, 172, 99, 53, 94, 65, 93, 83, 184, 148, 23, 155, 137, 56, 219, 183, 128]

/-- Account-proof fixture node 1 from the repository's `test_account_proof` (532 bytes). -/
def accountProofNode1 : List Nat :=
  [249, 2, 17, 160, 62, 34, 5, 107, 14, 239, 201, 72, 152, 213, 22, 180, 94, 165, 121, 189, 41, 130, 145, 170, 82, 28, 134, 101, 243, 213, 33, 93, 165, 97, 149, 19, 160, 181, 243, 248, 57, 50, 12, 61, 99, 67, 106, 143, 39, 160, 123, 196, 122, 94, 122, 206, 79, 93, 128, 228, 55, 206, 32, 132, 160, 7, 224, 253, 55, 160, 230, 102, 183, 25, 141, 107, 96, 35, 222, 154, 105, 143, 75, 201, 10, 149, 149, 229, 127, 127, 78, 112, 208, 125, 3, 102, 198, 147, 213, 57, 148, 197, 160, 91, 20, 130, 11, 113, 159, 187, 55, 245, 233, 255, 85, 119, 13, 108, 235, 99, 239, 144, 175, 70, 147, 67, 119, 192, 54, 76, 167, 35, 53, 133, 46, 160, 156, 74, 26, 29, 91, 30, 88, 233, 190, 28, 155, 78, 164, 233, 67, 197, 20, 180, 174, 138, 56, 43, 230, 221, 22, 229, 51, 54, 53, 78, 5, 0, 160, 5, 140, 36, 178, 95, 151, 237, 81, 202, 44, 68, 224, 22, 99, 23, 83, 235, 151, 25, 119, 51, 178, 58, 234, 35, 174, 241, 18, 162, 50, 51, 33, 160, 51, 71, 215, 148, 71, 177, 134, 120, 251, 190, 221, 1, 180, 142, 82, 116, 122, 83, 1, 211, 34, 35, 196, 190, 145, 245, 104, 29, 42, 105, 215, 178, 160, 65, 130, 246, 226, 66, 97, 88, 4, 164, 159, 58, 84, 57, 158, 40, 93, 132, 166, 231, 105, 44, 202, 65, 0, 141, 43, 99, 139, 227, 15, 224, 15, 160, 198, 74, 30, 113, 231, 81, 45, 115, 0, 141, 76, 206, 42, 43, 160, 152, 16, 35, 196, 255, 95, 130, 27, 169, 127, 207, 128, 89, 244, 105, 155, 181, 160, 103, 59, 238, 138, 68, 108, 172, 21, 34, 30, 146, 146, 169, 4, 237, 68, 118, 44, 203, 25, 218, 197, 123, 190, 240, 133, 215, 108, 108, 91, 155, 176, 160, 101, 209, 204, 236, 99, 22, 58, 78, 94, 165, 1, 243, 149, 26, 56, 77, 170, 169, 170, 244, 201, 201, 118, 249, 99, 227, 89, 123, 62, 140, 228, 236, 160, 251, 74, 120, 134, 118, 181, 165, 147, 231, 219, 108, 17, 73, 227, 200, 156, 119, 78, 249, 145, 80, 16, 132, 107, 203, 83, 86, 55, 54, 204, 222, 112, 160, 213, 39, 76, 230, 164, 231, 68, 173, 171, 152, 19, 158, 217, 214, 181, 132, 106, 68, 151, 33, 243, 45, 15, 73, 224, 32, 6, 31, 90, 187, 9, 75, 160, 187, 247, 253, 94, 147, 167, 79, 109, 142, 196, 223, 111, 43, 12, 127, 111, 242, 179, 135, 161, 162, 203, 47, 209, 242, 101, 69, 32, 140, 9, 148, 67, 160, 221, 172, 94, 196, 148, 181, 41, 232, 122, 1, 78, 159, 128, 134, 148, 147, 0, 142, 186, 85, 158, 142, 217, 233, 105, 31, 207, 33, 155, 234, 20, 208, 160, 96, 146, 181, 220, 93, 210, 79, 118, 139, 12, 11, 247, 74, 109, 235, 14, 78, 154, 95, 163, 196, 116, 208, 109, 82, 166, 58, 206, 129, 210, 114, 201, 128]

/-- Account-proof fixture node 2 from the repository's `test_account_proof` (532 bytes). -/
def accountProofNode2 : List Nat :=
  [249, 2, 17, 160, 215, 176, 26, 28, 94, 102, 179, 203, 179, 88, 50, 136, 139, 219, 92, 19, 18, 150, 138, 40, 73, 185, 66, 170, 211, 67, 60, 108, 33, 153, 15, 172, 160, 103, 209, 126, 86, 252, 9, 35, 6, 37, 75, 33, 230, 16, 21, 3, 198, 67, 38, 187, 186, 70, 124, 113, 76, 173, 238, 140, 153, 120, 170, 43, 87, 160, 52, 73, 41, 200, 103, 66, 129, 243, 54, 243, 143, 81, 22, 70, 154, 116, 64, 188, 65, 105, 89, 22, 189, 63, 170, 248, 113, 113, 105, 115, 162, 87, 160, 232, 41, 203, 204, 107, 32, 125, 249, 88, 121, 175, 23, 214, 223, 73, 161, 50, 122, 99, 190, 106, 43, 46, 138, 44, 31, 138, 132, 133, 169, 150, 230, 160, 58, 127, 110, 78, 189, 102, 224, 55, 126, 120, 129, 162, 222, 67, 97, 163, 74, 192, 145, 22, 176, 204, 254, 123, 242, 169, 106, 181, 16, 12, 74, 33, 160, 112, 123, 59, 147, 183, 174, 174, 52, 151, 55, 97, 59, 73, 3, 124, 64, 109, 65, 16, 23, 252, 249, 156, 8, 119, 34, 83, 56, 67, 127, 165, 73, 160, 220, 225, 15, 41, 126, 139, 215, 111, 243, 121, 201, 239, 84, 141, 81, 244, 145, 219, 103, 123, 86, 108, 235, 95, 131, 161, 57, 189, 11, 96, 174, 78, 160, 196, 241, 230, 135, 35, 210, 72, 25, 93, 68, 57, 148, 44, 53, 243, 115, 221, 210, 136, 156, 217, 122, 34, 79, 241, 163, 211, 121, 34, 155, 121, 174, 160, 209, 113, 103, 72, 137, 70, 8, 253, 185, 128, 103, 199, 218, 170, 208, 231, 3, 203, 66, 189, 139, 197, 127, 57, 120, 91, 21, 95, 105, 20, 194, 172, 160, 195, 157, 244, 216, 176, 36, 43, 30, 175, 115, 63, 60, 214, 35, 114, 17, 194, 107, 89, 90, 24, 213, 232, 49, 192, 98, 160, 112, 234, 58, 72, 7, 160, 178, 229, 31, 202, 238, 69, 210, 82, 169, 107, 175, 151, 94, 14, 80, 109, 206, 124, 126, 61, 220, 57, 227, 15, 123, 185, 222, 137, 85, 246, 2, 219, 160, 110, 240, 92, 221, 10, 128, 178, 70, 164, 217, 27, 192, 221, 228, 223, 146, 121, 89, 71, 77, 86, 127, 220, 155, 17, 165, 134, 238, 222, 100, 49, 145, 160, 119, 84, 221, 21, 255, 174, 49, 94, 217, 243, 9, 242, 226, 114, 33, 64, 252, 25, 137, 199, 131, 253, 218, 63, 69, 79, 232, 213, 231, 191, 14, 59, 160, 108, 168, 129, 9, 35, 224, 30, 200, 139, 10, 20, 83, 95, 226, 72, 214, 104, 13, 245, 222, 155, 236, 197, 150, 43, 151, 163, 199, 85, 187, 47, 132, 160, 124, 223, 201, 133, 125, 6, 186, 7, 74, 213, 202, 23, 105, 172, 4, 28, 124, 153, 226, 90, 65, 51, 31, 98, 95, 22, 198, 206, 134, 187, 27, 168, 160, 157, 119, 154, 85, 151, 126, 72, 205, 144, 214, 198, 183, 59, 155, 134, 48, 26, 213, 75, 206, 34, 76, 78, 26, 188, 215, 102, 125, 250, 68, 52, 123, 128]

/-- Account-proof fixture node 3 from the repository's `test_account_proof` (532 bytes). -/
def accountProofNode3 : List Nat :=
  [249, 2, 17, 160, 169, 8, 140, 233, 41, 77, 184, 163, 246, 90, 223, 90, 60, 235, 93, 28, 211, 76, 120, 4, 248, 254, 154, 105, 234, 246, 107, 184, 96, 197, 223, 145, 160, 214, 173, 134, 247, 239, 149, 129, 33, 170, 184, 53, 6, 221, 157, 87, 66, 245, 152, 4, 119, 228, 219, 80, 60, 138, 14, 238, 115, 89, 214, 152, 87, 160, 14, 114, 210, 246, 56, 162, 184, 115, 104, 154, 6, 175, 213, 192, 128, 137, 62, 5, 238, 111, 137, 34, 180, 149, 212, 27, 67, 114, 120, 121, 207, 62, 160, 230, 243, 152, 239, 251, 226, 118, 215, 25, 71, 169, 32, 252, 129, 102, 2, 178, 85, 223, 63, 183, 59, 213, 154, 207, 211, 192, 54, 174, 15, 121, 150, 160, 168, 78, 157, 32, 211, 59, 181, 213, 219, 133, 127, 58, 206, 110, 50, 181, 76, 147, 247, 209, 72, 221, 236, 232, 119, 125, 1, 172, 162, 147, 169, 196, 160, 227, 231, 18, 111, 142, 187, 40, 105, 25, 179, 207, 178, 24, 154, 34, 246, 63, 164, 117, 252, 15, 167, 179, 110, 121, 82, 111, 40, 153, 61, 8, 158, 160, 175, 156, 132, 250, 21, 216, 13, 92, 216, 70, 44, 195, 66, 7, 34, 87, 248, 234, 194, 22, 26, 17, 61, 164, 1, 83, 109, 196, 180, 222, 92, 235, 160, 223, 124, 249, 117, 170, 33, 59, 108, 164, 230, 85, 169, 159, 77, 7, 75, 36, 181, 65, 46, 48, 86, 209, 179, 145, 136, 85, 11, 73, 222, 160, 247, 160, 199, 106, 191, 71, 9, 110, 59, 38, 96, 249, 53, 6, 27, 78, 19, 99, 120, 18, 106, 239, 236, 188, 179, 72, 200, 149, 164, 198, 120, 25, 37, 54, 160, 207, 22, 7, 75, 105, 185, 102, 82, 7, 69, 70, 112, 128, 83, 80, 110, 107, 45, 91, 125, 111, 53, 100, 242, 9, 29, 219, 105, 11, 112, 20, 9, 160, 66, 51, 13, 29, 70, 215, 69, 105, 203, 98, 249, 0, 192, 107, 178, 101, 149, 3, 215, 59, 147, 190, 131, 55, 19, 144, 144, 64, 4, 137, 127, 17, 160, 14, 239, 220, 127, 213, 137, 12, 32, 81, 221, 111, 99, 38, 224, 54, 38, 134, 19, 184, 32, 155, 70, 197, 243, 29, 212, 202, 87, 226, 112, 160, 237, 160, 93, 160, 230, 36, 140, 150, 243, 103, 226, 177, 57, 194, 50, 156, 168, 234, 45, 74, 155, 164, 198, 67, 142, 45, 51, 169, 237, 55, 243, 214, 49, 4, 160, 212, 61, 104, 20, 237, 31, 118, 95, 213, 210, 4, 206, 145, 169, 41, 150, 173, 239, 110, 101, 197, 99, 175, 89, 39, 27, 89, 189, 147, 55, 25, 238, 160, 78, 108, 103, 141, 166, 156, 211, 136, 148, 242, 87, 77, 155, 48, 216, 135, 28, 215, 237, 221, 98, 183, 24, 224, 148, 22, 121, 168, 90, 133, 177, 125, 160, 48, 10, 160, 118, 159, 165, 115, 248, 196, 11, 200, 65, 89, 126, 51, 215, 99, 255, 50, 188, 4, 79, 152, 170, 101, 89, 226, 223, 9, 179, 23, 73, 128]

/-- Account-proof fixture node 4 from the repository's `test_account_proof` (532 bytes). -/
def accountProofNode4 : List Nat :=
  [249, 2, 17, 160, 188, 128, 216, 174, 108, 202, 201, 62, 228, 178, 192, 32, 205, 201, 142, 150, 12, 47, 132, 7, 25, 228, 238, 213, 24, 162, 132, 98, 245, 194, 224, 66, 160, 20, 129, 98, 123, 67, 87, 52, 25, 111, 148, 89, 45, 16, 202, 113, 199, 220, 179, 110, 171, 124, 43, 57, 223, 41, 170, 44, 16, 234, 148, 75, 199, 160, 98, 115, 104, 252, 198, 76, 166, 221, 195, 17, 221, 247, 49, 6, 37, 239, 93, 2, 167, 166, 96, 167, 57, 4, 124, 77, 222, 36, 215, 243, 117, 170, 160, 171, 101, 41, 219, 236, 26, 212, 92, 50, 133, 31, 231, 14, 23, 202, 8, 51, 45, 131, 22, 69, 56, 132, 198, 143, 116, 231, 168, 137, 186, 70, 192, 160, 215, 60, 89, 70, 70, 155, 153, 37, 231, 104, 31, 69, 88, 10, 141, 149, 127, 152, 160, 95, 128, 161, 169, 189, 127, 226, 41, 171, 121, 251, 183, 236, 160, 64, 104, 24, 254, 144, 149, 49, 210, 142, 4, 97, 249, 59, 66, 143, 107, 83, 10, 164, 17, 82, 154, 83, 222, 33, 48, 22, 224, 212, 118, 147, 196, 160, 162, 198, 61, 0, 64, 158, 17, 220, 226, 67, 53, 33, 97, 112, 128, 89, 151, 25, 246, 94, 114, 127, 177, 185, 102, 210, 136, 252, 85, 21, 81, 91, 160, 22, 228, 108, 103, 163, 180, 171, 162, 110, 213, 122, 56, 187, 10, 197, 13, 64, 48, 27, 212, 228, 72, 46, 62, 236, 6, 103, 242, 215, 13, 79, 154, 160, 146, 98, 100, 67, 82, 180, 199, 228, 53, 242, 199, 117, 102, 176, 240, 59, 9, 179, 16, 155, 11, 164, 253, 179, 193, 143, 159, 91, 63, 248, 58, 104, 160, 6, 220, 10, 152, 72, 121, 30, 128, 104, 242, 91, 15, 202, 26, 143, 42, 23, 198, 66, 20, 21, 247, 51, 85, 238, 88, 95, 105, 228, 141, 217, 192, 160, 193, 88, 54, 59, 124, 54, 217, 171, 242, 192, 127, 172, 82, 196, 58, 216, 203, 179, 112, 138, 244, 200, 55, 92, 100, 64, 141, 164, 177, 198, 17, 46, 160, 32, 41, 15, 3, 223, 147, 72, 164, 91, 230, 155, 17, 244, 62, 246, 2, 57, 171, 169, 95, 49, 188, 52, 132, 57, 180, 130, 124, 90, 148, 234, 26, 160, 149, 12, 11, 94, 180, 108, 178, 104, 4, 112, 110, 251, 150, 59, 62, 140, 243, 187, 240, 176, 206, 120, 251, 254, 66, 50, 248, 142, 28, 196, 152, 15, 160, 223, 211, 170, 5, 64, 49, 159, 69, 145, 98, 54, 244, 96, 247, 104, 49, 191, 197, 38, 232, 192, 39, 159, 231, 152, 195, 103, 74, 208, 137, 152, 238, 160, 214, 139, 19, 76, 181, 169, 67, 55, 41, 187, 70, 82, 27, 70, 233, 191, 115, 127, 171, 226, 193, 86, 129, 133, 220, 13, 98, 203, 45, 242, 54, 51, 160, 114, 112, 131, 83, 188, 16, 162, 57, 200, 9, 145, 222, 239, 217, 160, 129, 88, 144, 43, 13, 77, 221, 129, 133, 117, 65, 54, 131, 88, 231, 26, 178, 128]

/-- Account-proof fixture node 5 from the repository's `test_account_proof` (340 bytes). -/
def accountProofNode5 : List Nat :=
  [249, 1, 81, 128, 128, 160, 107, 56, 97, 233, 57, 255, 217, 36, 197, 18, 230, 49, 254, 186, 196, 183, 87, 56, 64, 145, 10, 35, 3, 86, 112, 31, 93, 152, 118, 212, 98, 247, 128, 128, 160, 100, 75, 4, 168, 155, 4, 139, 233, 4, 79, 125, 223, 13, 223, 207, 223, 22, 235, 133, 151, 112, 197, 155, 234, 40, 59, 232, 62, 252, 10, 184, 82, 160, 71, 131, 210, 246, 249, 93, 45, 248, 236, 254, 156, 209, 118, 170, 191, 13, 92, 230, 225, 165, 32, 9, 192, 215, 216, 1, 106, 156, 137, 124, 217, 150, 160, 94, 191, 46, 149, 240, 206, 136, 98, 59, 225, 185, 223, 101, 93, 223, 246, 3, 43, 182, 133, 48, 206, 128, 252, 6, 9, 20, 162, 108, 152, 62, 214, 160, 178, 205, 163, 12, 128, 218, 223, 52, 144, 157, 147, 125, 201, 119, 146, 139, 239, 139, 112, 43, 207, 100, 172, 124, 191, 177, 74, 28, 85, 68, 72, 152, 160, 222, 59, 239, 139, 157, 252, 232, 196, 162, 210, 75, 108, 168, 2, 245, 17, 110, 126, 135, 62, 162, 208, 134, 63, 28, 247, 44, 35, 103, 47, 130, 194, 128, 160, 78, 117, 180, 127, 112, 93, 120, 17, 160, 211, 38, 68, 10, 73, 155, 45, 254, 176, 149, 156, 209, 81, 249, 27, 113, 137, 97, 17, 191, 232, 174, 101, 128, 160, 95, 204, 185, 208, 198, 82, 72, 134, 175, 3, 187, 31, 104, 153, 12, 159, 84, 192, 152, 245, 124, 102, 74, 92, 81, 153, 64, 82, 253, 86, 58, 236, 160, 203, 171, 158, 245, 232, 53, 72, 233, 147, 197, 205, 155, 104, 138, 242, 243, 76, 109, 156, 92, 99, 43, 89, 182, 135, 250, 90, 94, 135, 182, 187, 242, 160, 251, 130, 187, 85, 45, 62, 236, 69, 138, 104, 208, 22, 66, 240, 231, 223, 61, 136, 213, 179, 4, 15, 105, 250, 121, 178, 228, 2, 173, 244, 18, 250, 128]

/-- Account-proof fixture node 6 from the repository's `test_account_proof` (83 bytes). -/
def accountProofNode6 : List Nat :=
  [248, 81, 128, 128, 128, 128, 128, 128, 128, 128, 128, 128, 128, 128, 160, 53, 217, 55, 150, 29, 115, 248, 160, 238, 169, 174, 65, 178, 244, 203, 183, 60, 29, 44, 6, 102, 234, 53, 241, 174, 5, 196, 59, 88, 150, 177, 9, 128, 128, 160, 224, 92, 134, 255, 251, 154, 173, 162, 47, 4, 41, 50, 109, 110, 218, 85, 110, 35, 246, 85, 145, 121, 117, 180, 248, 89, 188, 37, 141, 50, 246, 127, 128]

/-- Account-proof fixture node 7 from the repository's `test_account_proof` (104 bytes). -/
def accountProofNode7 : List Nat :=
  [248, 102, 157, 57, 158, 30, 244, 49, 61, 195, 85, 138, 238, 134, 204, 145, 20, 116, 194, 38, 47, 29, 190, 56, 122, 234, 37, 68, 34, 85, 42, 95, 184, 70, 248, 68, 1, 128, 160, 160, 62, 16, 223, 186, 137, 247, 149, 103, 247, 201, 162, 56, 238, 127, 230, 110, 211, 46, 113, 27, 228, 219, 110, 115, 215, 33, 22, 1, 222, 195, 96, 160, 53, 108, 120, 84, 254, 122, 72, 62, 206, 2, 165, 49, 197, 139, 99, 170, 43, 219, 171, 64, 223, 137, 201, 249, 25, 240, 213, 36, 181, 77, 212, 148]

/-- The 8-node account-proof fixture. -/
def accountProof : List (List Nat) :=
  [accountProofNode0, accountProofNode1, accountProofNode2, accountProofNode3, accountProofNode4, accountProofNode5, accountProofNode6, accountProofNode7]

/-- Fixture address `43f0…659D` (20 bytes). -/
def accountAddr : List Nat :=
  [67, 240, 34, 37, 82, 232, 17, 74, 216, 242, 36, 222, 168, 153, 118, 211, 191, 65, 101, 157]

/-- Fixture state root `cd187a0c…491c621c` (32 bytes). -/
def accountStateRoot : List Nat :=
  [205, 24, 122, 12, 61, 221, 173, 36, 241, 187, 68, 33, 24, 73, 204, 85, 182, 210, 255, 39, 19, 190, 133, 247, 39, 233, 171, 140, 73, 28, 98, 28]

/-- Expected storage root `a03e10df…601dec360` (32 bytes). -/
def accountStorageRoot : List Nat :=
  [160, 62, 16, 223, 186, 137, 247, 149, 103, 247, 201, 162, 56, 238, 127, 230, 110, 211, 46, 113, 27, 228, 219, 110, 115, 215, 33, 22, 1, 222, 195, 96]

/-- Storage-proof fixture node 0 from the repository's `test_storage_value` (532 bytes). -/
def storageProofNode0 : List Nat :=
  [249, 2, 17, 160, 240, 161, 110, 233, 177, 21, 40, 243, 218, 135, 150, 34, 157, 173, 19, 75, 144, 133, 237, 148, 40, 216, 104, 230, 152, 143, 155, 36, 115, 181, 157, 111, 160, 248, 23, 80, 21, 208, 163, 223, 143, 196, 81, 210, 189, 61, 100, 163, 78, 8, 54, 243, 32, 49, 41, 172, 86, 126, 134, 159, 17, 87, 180, 136, 223, 160, 249, 213, 110, 148, 60, 105, 98, 207, 142, 44, 165, 27, 148, 181, 67, 7, 235, 69, 66, 78, 187, 132, 237, 7, 155, 65, 124, 240, 58, 133, 226, 152, 160, 64, 138, 249, 241, 197, 246, 78, 214, 197, 23, 177, 219, 246, 97, 183, 90, 112, 94, 247, 215, 139, 202, 230, 123, 154, 84, 193, 232, 5, 43, 86, 178, 160, 33, 87, 212, 118, 169, 160, 119, 207, 201, 235, 0, 234, 213, 171, 101, 220, 191, 227, 99, 167, 30, 153, 60, 54, 2, 166, 108, 15, 204, 241, 62, 74, 160, 7, 114, 105, 126, 191, 37, 242, 232, 56, 48, 145, 139, 213, 43, 187, 150, 0, 192, 119, 174, 40, 158, 116, 10, 231, 108, 123, 223, 211, 75, 126, 190, 160, 161, 221, 13, 167, 106, 172, 247, 200, 38, 41, 197, 94, 75, 149, 107, 46, 158, 247, 125, 127, 220, 238, 26, 222, 178, 61, 2, 47, 9, 80, 213, 84, 160, 105, 92, 183, 35, 200, 87, 217, 138, 209, 201, 106, 55, 47, 121, 131, 191, 119, 21, 86, 244, 96, 134, 116, 38, 106, 6, 152, 83, 21, 67, 33, 123, 160, 92, 15, 179, 71, 48, 87, 32, 184, 28, 125, 57, 190, 111, 213, 178, 8, 58, 246, 7, 101, 64, 152, 160, 241, 65, 142, 193, 17, 168, 70, 81, 10, 160, 236, 211, 8, 8, 191, 252, 177, 100, 162, 88, 195, 50, 162, 159, 48, 80, 233, 232, 93, 40, 233, 136, 48, 91, 127, 100, 61, 202, 212, 243, 44, 143, 160, 236, 94, 233, 58, 126, 222, 10, 156, 100, 29, 205, 117, 21, 193, 64, 138, 180, 143, 134, 181, 41, 92, 210, 107, 61, 115, 142, 141, 138, 199, 130, 159, 160, 20, 52, 165, 246, 5, 68, 86, 187, 206, 10, 89, 186, 28, 24, 46, 238, 232, 230, 79, 214, 118, 47, 243, 101, 229, 80, 202, 124, 216, 206, 218, 208, 160, 180, 254, 252, 179, 37, 240, 68, 166, 102, 60, 148, 65, 236, 159, 2, 87, 24, 208, 242, 215, 252, 28, 41, 236, 129, 159, 74, 54, 108, 175, 187, 111, 160, 204, 38, 191, 177, 129, 81, 86, 155, 15, 118, 83, 53, 71, 79, 163, 132, 15, 144, 147, 56, 88, 22, 189, 20, 164, 163, 197, 83, 250, 230, 41, 73, 160, 106, 40, 192, 47, 123, 100, 155, 173, 36, 179, 157, 154, 78, 159, 196, 200, 233, 59, 26, 226, 176, 67, 175, 79, 91, 188, 184, 35, 142, 25, 62, 171, 160, 17, 239, 136, 144, 148, 191, 108, 167, 64, 129, 4, 35, 4, 17, 105, 69, 59, 125, 174, 163, 223, 152, 179, 1, 133, 35, 248, 110, 150, 191, 3, 53, 128]

/-- Storage-proof fixture node 1 from the repository's `test_storage_value` (211 bytes). -/
def storageProofNode1 : List Nat :=
  [248, 209, 128, 128, 128, 128, 160, 5, 58, 128, 224, 236, 6, 69, 176, 172, 221, 221, 22, 80, 178, 129, 4, 222, 42, 81, 231, 20, 75, 197, 199, 247, 246, 157, 68, 197, 68, 88, 122, 128, 160, 187, 45, 76, 34, 21, 37, 155, 160, 167, 251, 165, 231, 80, 190, 52, 245, 16, 251, 68, 148, 161, 155, 79, 186, 188, 139, 65, 159, 106, 53, 52, 110, 128, 128, 128, 160, 26, 152, 23, 251, 194, 243, 98, 78, 178, 42, 68, 213, 182, 100, 60, 55, 14, 172, 81, 199, 127, 243, 168, 213, 159, 66, 177, 217, 254, 94, 169, 37, 160, 156, 133, 30, 253, 207, 209, 214, 35, 253, 74, 62, 94, 247, 240, 65, 177, 245, 155, 106, 231, 214, 7, 64, 41, 28, 194, 226, 91, 204, 192, 169, 179, 128, 128, 160, 221, 246, 55, 192, 239, 212, 119, 130, 57, 249, 58, 96, 159, 170, 105, 72, 9, 250, 245, 66, 14, 70, 36, 136, 222, 133, 176, 162, 186, 91, 207, 102, 160, 252, 49, 191, 241, 133, 94, 112, 40, 142, 44, 82, 56, 62, 24, 65, 206, 188, 104, 187, 204, 8, 218, 117, 7, 198, 17, 47, 45, 32, 7, 35, 22, 128]

/-- Storage-proof fixture node 2 from the repository's `test_storage_value` (69 bytes). -/
def storageProofNode2 : List Nat :=
  [248, 67, 160, 32, 78, 255, 201, 54, 37, 154, 87, 197, 111, 252, 151, 191, 96, 26, 111, 110, 225, 41, 172, 92, 211, 152, 9, 168, 137, 223, 26, 138, 211, 253, 193, 161, 160, 54, 23, 100, 60, 223, 248, 138, 175, 102, 198, 208, 159, 209, 28, 26, 115, 206, 105, 221, 144, 80, 134, 175, 214, 146, 166, 44, 75, 168, 0, 253, 212]

/-- The 3-node storage-proof fixture. -/
def storageProof : List (List Nat) :=
  [storageProofNode0, storageProofNode1, storageProofNode2]

/-- ABI-encoded slot index hashed into the fixture's slot hash (64 bytes). -/
def storageAbiEncodedSlot : List Nat :=
  [0, 0, 0, 0, 0, 0, 0, 0, 0, 0, 0, 0, 0, 0, 0, 0, 0, 0, 0, 0, 0, 0, 0, 0, 0, 0, 0, 0, 0, 0, 0, 84, 0, 0, 0, 0, 0, 0, 0, 0, 0, 0, 0, 0, 0, 0, 0, 0, 0, 0, 0, 0, 0, 0, 0, 0, 0, 0, 0, 0, 0, 0, 0, 1]

/-- Message bytes whose keccak-256 is the fixture's stored value (133 bytes). -/
def storageFixtureMessage : List Nat :=
  [1, 0, 0, 0, 0, 0, 0, 0, 84, 0, 0, 0, 5, 226, 177, 152, 69, 254, 43, 123, 179, 83, 243, 119, 209, 45, 213, 26, 240, 18, 251, 186, 32, 0, 0, 0, 100, 0, 0, 0, 0, 0, 0, 0, 0, 0, 0, 0, 0, 0, 0, 0, 0, 0, 0, 0, 0, 0, 0, 0, 0, 0, 0, 0, 0, 0, 0, 0, 0, 0, 0, 0, 0, 0, 0, 0, 0, 0, 0, 0, 0, 0, 0, 0, 0, 0, 0, 0, 0, 0, 0, 0, 0, 0, 0, 0, 0, 0, 0, 0, 0, 0, 0, 0, 0, 0, 0, 0, 0, 0, 0, 0, 0, 0, 0, 0, 0, 0, 0, 0, 0, 0, 0, 0, 0, 0, 0, 0, 0, 0, 0, 0, 100]

/-- 74-byte verifier-output fixture from the repository's `state.rs` test (74 bytes). -/
def stepOutputFixture : List Nat :=
  [228, 86, 110, 12, 244, 237, 177, 113, 163, 238, 221, 89, 249, 148, 59, 188, 208, 177, 246, 182, 72, 241, 166, 226, 109, 82, 100, 182, 104, 171, 65, 236, 81, 231, 102, 41, 179, 43, 148, 52, 151, 32, 126, 123, 124, 207, 248, 251, 193, 46, 158, 109, 117, 140, 199, 238, 217, 114, 66, 44, 76, 173, 2, 185, 0, 0, 0, 0, 0, 116, 127, 160, 1, 253]

/-- Expected finalized header root `e4566e0c…ab41ec` (32 bytes). -/
def stepFinalizedHeaderRoot : List Nat :=
  [228, 86, 110, 12, 244, 237, 177, 113, 163, 238, 221, 89, 249, 148, 59, 188, 208, 177, 246, 182, 72, 241, 166, 226, 109, 82, 100, 182, 104, 171, 65, 236]

/-- Expected execution state root `51e76629…cad02b9` (32 bytes). -/
def stepExecutionStateRoot : List Nat :=
  [81, 231, 102, 41, 179, 43, 148, 52, 151, 32, 126, 123, 124, 207, 248, 251, 193, 46, 158, 109, 117, 140, 199, 238, 217, 114, 66, 44, 76, 173, 2, 185]

/-! ## `state.rs`: verified-output decoding -/

structure VerifiedStepOutput where
  finalized_header_root : List Nat
  execution_state_root : List Nat
  finalized_slot : Nat
  participation : Nat
deriving DecidableEq

/-- `parse_step_output`: copies `output[..32]`, `output[32..64]`,
`output[64..72]`, `output[72..74]` with unconditional slice indexing, which
aborts exactly when fewer than 74 bytes are supplied. -/
def parse_step_output (output : List Nat) : RustOutcome VerifiedStepOutput :=
  if output.length < 74 then .panic
  else .ok {
    finalized_header_root := output.take 32
    execution_state_root := (output.drop 32).take 32
    finalized_slot := beNat ((output.drop 64).take 8)
    participation := beNat ((output.drop 72).take 2) }

/-- `parse_rotate_output`: `U256::from_big_endian` asserts that its slice is
at most 32 bytes and aborts otherwise. -/
def parse_rotate_output (output : List Nat) : RustOutcome Nat :=
  if output.length ≤ 32 then .ok (beNat output) else .panic

/-! ## `target_amb.rs`: message codec -/

structure Message where
  version : Nat
  nonce : Nat
  source_chain_id : Nat
  source_address : List Nat
  destination_chain_id : Nat
  destination_address : List Nat
  data : List Nat
deriving DecidableEq

/-- `decode_message`: fixed-offset slice copies up to offset 69, with
unconditional slice indexing that aborts exactly when the buffer is shorter
than 69 bytes. -/
def decode_message (message : List Nat) : RustOutcome Message :=
  if message.length < 69 then .panic
  else .ok {
    version := message.headD 0
    nonce := beNat ((message.drop 1).take 8)
    source_chain_id := beNat ((message.drop 9).take 4)
    source_address := (message.drop 13).take 20
    destination_chain_id := beNat ((message.drop 33).take 4)
    destination_address := (message.drop 37).take 32
    data := message.drop 69 }

inductive AMBError where
  | CannotDecodeMessageData
deriving DecidableEq

structure MessageData where
  recipient_address : List Nat
  amount : Nat
deriving DecidableEq

/-- `ethabi::decode(&[FixedBytes(32), Uint(256), Address], data)` for this
all-static tuple: reads three consecutive 32-byte head words (the address is
the low 20 bytes of the third word), errors when the buffer is shorter than
the 96 bytes those words occupy, and ignores trailing bytes. -/
def ethabiDecodeFixedUintAddr (data : List Nat) :
    Option (List Nat × Nat × List Nat) :=
  if data.length < 96 then none
  else some (data.take 32, beNat ((data.drop 32).take 32),
    ((data.drop 64).take 32).drop 12)

/-- `decode_message_data`: on a successful ABI decode the three tokens are
present and of the declared shapes, so the subsequent `ok_or`/`into_*`
conversions never fail; the third (address) token is dropped. -/
def decode_message_data (message : List Nat) : RustResult AMBError MessageData :=
  match ethabiDecodeFixedUintAddr message with
  | none => .err .CannotDecodeMessageData
  | some (fb, amount, _) => .ok { recipient_address := fb, amount := amount }

/-! ## `state.rs`: CircomProof → ark `Proof<Bn254>` conversion -/

structure CircomProof where
  pi_a : List String
  pi_b : List (List String)
  pi_c : List String
  protocol : String
  curve : String

structure G1Affine where
  x : Nat
  y : Nat
  infinity : Bool
deriving DecidableEq

structure Fq2 where
  c0 : Nat
  c1 : Nat
deriving DecidableEq

structure G2Affine where
  x : Fq2
  y : Fq2
  infinity : Bool
deriving DecidableEq

structure Groth16ProofPoints where
  a : G1Affine
  b : G2Affine
  c : G1Affine
deriving DecidableEq

/-- The BN254 base-field modulus (`ark_bn254::Fq`). -/
def bn254FqModulus : Nat :=
  21888242871839275222246405745257275088696311157297823662689037894645226208583

def fpFromStrAux (p : Nat) : List Char → Bool → Nat → Option Nat
  | [], _, acc => some acc
  | c :: cs, first, acc =>
    if c.isDigit then
      if first ∧ c = '0' then none
      else fpFromStrAux p cs false ((acc * 10 + (c.toNat - 48)) % p)
    else none

/-- arkworks 0.3 `Fp::from_str`: rejects the empty string, any non-digit
character, and a leading zero (except for the string `0`); accumulates
`acc * 10 + digit` in the field, i.e. modulo `p`. -/
def fpFromStr (p : Nat) (s : String) : Option Nat :=
  match s.data with
  | [] => none
  | cs => if cs = ['0'] then some 0 else fpFromStrAux p cs true 0

/-- `CircomProof::to_proof`: every `Vec` index and every
`Fp256::from_str(..).unwrap()` aborts on failure, so any missing element or
unparsable string collapses the outcome to `panic` (the order in which Rust
hits the first failure does not affect that outcome). -/
def to_proof (p : CircomProof) : RustOutcome Groth16ProofPoints :=
  match p.pi_a.get? 0, p.pi_a.get? 1, p.pi_b.get? 0, p.pi_b.get? 1,
        p.pi_c.get? 0, p.pi_c.get? 1 with
  | some a0s, some a1s, some brow0, some brow1, some c0s, some c1s =>
    match brow0.get? 0, brow0.get? 1, brow1.get? 0, brow1.get? 1 with
    | some b00s, some b01s, some b10s, some b11s =>
      match fpFromStr bn254FqModulus a0s, fpFromStr bn254FqModulus a1s,
            fpFromStr bn254FqModulus b00s, fpFromStr bn254FqModulus b01s,
            fpFromStr bn254FqModulus b10s, fpFromStr bn254FqModulus b11s,
            fpFromStr bn254FqModulus c0s, fpFromStr bn254FqModulus c1s with
      | some a0, some a1, some b00, some b01, some b10, some b11,
        some c0, some c1 =>
        .ok { a := ⟨a0, a1, false⟩,
              b := ⟨⟨b00, b01⟩, ⟨b10, b11⟩, false⟩,
              c := ⟨c0, c1, false⟩ }
      | _, _, _, _, _, _, _, _ => .panic
    | _, _, _, _ => .panic
  | _, _, _, _, _, _ => .panic

/-- A decimal string as accepted by `Fp::from_str`: nonempty, all digits,
no leading zero unless it is exactly `0`. -/
def decimalStr (s : String) : Bool :=
  match s.data with
  | [] => false
  | cs => cs.all (fun c => c.isDigit) && (cs = ['0'] || !(cs.headD '0' = '0'))

/-- A well-formed decimal-string triple in the claim's sense:
`a` two strings, `b` two rows of two strings, `c` two strings. -/
def wellFormedCircom (p : CircomProof) : Bool :=
  p.pi_a.length == 2 && p.pi_b.length == 2 && p.pi_c.length == 2 &&
  (p.pi_b.all fun row => row.length == 2) &&
  p.pi_a.all decimalStr && p.pi_c.all decimalStr &&
  (p.pi_b.all fun row => row.all decimalStr)

/-- A proof whose first coordinate string is not numeric. -/
def badCircomProof : CircomProof :=
  { pi_a := ["x", "1"], pi_b := [["1", "2"], ["3", "4"]], pi_c := ["5", "6"],
    protocol := "groth16", curve := "bn128" }

/-- A well-formed decimal-string triple. -/
def goodCircomProof : CircomProof :=
  { pi_a := ["1", "2"], pi_b := [["3", "4"], ["5", "6"]], pi_c := ["7", "0"],
    protocol := "groth16", curve := "bn128" }

/-! ## Crafted proof nodes witnessing the abort paths of the trie code -/

/-- A 20-byte address for the crafted account trie. -/
def c2Addr : List Nat := List.replicate 20 0

/-- A single leaf node binding the full 64-nibble path of
`keccak256 c2Addr` to the value `0xc4 01 02 03 04`: an RLP list of four
items whose third item is the single byte `3` (so not 32 bytes long). -/
def c2AccountLeafNode : List Nat :=
  [0xe8, 0xa1, 0x20] ++ keccak256 c2Addr ++ [0x85, 0xc4, 1, 2, 3, 4]

/-- Root of the crafted one-node account trie. -/
def c2Root : List Nat := keccak256 c2AccountLeafNode

/-- A 32-byte slot hash for the crafted storage trie. -/
def c3Slot : List Nat := List.replicate 32 0

/-- A single leaf node binding the full 64-nibble path of
`keccak256 c3Slot` to the value `0x82 01 02`: an RLP string whose payload
is the two bytes `01 02` (nonempty but not 32 bytes long). -/
def c3StorageLeafNode : List Nat :=
  [0xe6, 0xa1, 0x20] ++ keccak256 c3Slot ++ [0x83, 0x82, 1, 2]

/-- Root of the crafted one-node storage trie. -/
def c3Root : List Nat := keccak256 c3StorageLeafNode

/-! ## Helper lemmas -/

theorem fpFromStrAux_isSome (p : Nat) (cs : List Char) (acc : Nat)
    (h : cs.all (fun c => c.isDigit) = true) :
    (fpFromStrAux p cs false acc).isSome = true := by
  induction cs generalizing acc with
  | nil => rfl
  | cons c cs ih =>
    rw [List.all_cons, Bool.and_eq_true] at h
    simp [fpFromStrAux, h.1, ih _ h.2]

theorem fpFromStr_isSome_of_decimal (p : Nat) (s : String)
    (h : decimalStr s = true) : (fpFromStr p s).isSome = true := by
  unfold decimalStr at h
  unfold fpFromStr
  cases hd : s.data with
  | nil => rw [hd] at h; exact absurd h (by simp)
  | cons c cs =>
    rw [hd] at h
    rw [Bool.and_eq_true] at h
    obtain ⟨hall, hlead⟩ := h
    by_cases h0 : c :: cs = ['0']
    · simp [h0]
    · simp only [h0, if_false]
      have hc : c.isDigit = true := by
        rw [List.all_cons, Bool.and_eq_true] at hall
        exact hall.1
      have hcz : ¬(c = '0') := by
        rw [Bool.or_eq_true] at hlead
        rcases hlead with h1 | h1
        · exact absurd (by exact decide_eq_true_eq.mp h1) h0
        · simpa using h1
      rw [List.all_cons, Bool.and_eq_true] at hall
      simp [fpFromStrAux, hc, hcz, fpFromStrAux_isSome p cs _ hall.2]

theorem take_of_take74_eq {b1 b2 : List Nat} (h : b1.take 74 = b2.take 74)
    (m n : Nat) (hmn : m + n ≤ 74) : (b1.drop m).take n = (b2.drop m).take n := by
  rw [List.take_drop, List.take_drop]
  have h1 : b1.take (m + n) = b2.take (m + n) := by
    have h2 := congrArg (List.take (m + n)) h
    rwa [List.take_take, List.take_take, Nat.min_eq_left hmn] at h2
  rw [h1]

/-! ## The claims -/

/-- C1: the claim says both `get_storage_root` and `get_storage_value` fail
closed with `StorageError` and never abort; but `get_storage_root` double-
`unwrap`s the trie lookup, so already on an empty proof-node collection it
aborts the process, while `get_storage_value` on the same input does return
`StorageError`. -/
theorem c1_get_storage_root_aborts_on_trie_failure :
    get_storage_root [] (List.replicate 20 0) (List.replicate 32 0) = .panic ∧
    get_storage_value (List.replicate 32 0) (List.replicate 32 0) [] =
      .err .StorageError := by
  exact ⟨by decide, by decide⟩

/-- C2: on the repository's 8-node fixture `get_storage_root` does return
the expected storage root, and `AccountNotFound` is tied to the 4-item
account shape; but the claim's "returns the list's element at index 2 as
the 32-byte storage root" fails on a crafted proof whose account leaf is a
4-item list with a 1-byte third item: `H256::from_slice` aborts instead of
returning a value or a typed error. -/
theorem c2_get_storage_root_account_decoding :
    get_storage_root [c2AccountLeafNode] c2Addr c2Root = .panic ∧
    get_storage_root accountProof accountAddr accountStateRoot =
      .ok accountStorageRoot := by
  exact ⟨by decide, by decide⟩

/-- C3: the claim says `get_storage_value` either fails with
`CannotDecodeItems`/`StorageError` or returns the decoded payload as a
32-byte value; but on a crafted proof whose leaf payload decodes to the two
bytes `01 02` (nonempty, not 32 bytes) `H256::from_slice` aborts. On the
repository's 3-node fixture the function does return the expected value. -/
theorem c3_get_storage_value_payload_decoding :
    get_storage_value c3Slot c3Root [c3StorageLeafNode] = .panic ∧
    get_storage_value (keccak256 storageAbiEncodedSlot) accountStorageRoot
      storageProof = .ok (keccak256 storageFixtureMessage) := by
  exact ⟨by decide, by decide⟩

/-- C4: for every buffer of at least 74 bytes, `parse_step_output` reads
bytes [0..32) as the finalized header root, [32..64) as the execution state
root, [64..72) big-endian as the finalized slot and [72..74) big-endian as
the participation; on the repository's 74-byte fixture this yields
participation 509, finalized slot 7634848 and the two expected roots. -/
theorem c4_parse_step_output_layout :
    (∀ output : List Nat, 74 ≤ output.length →
      parse_step_output output = .ok {
        finalized_header_root := output.take 32
        execution_state_root := (output.drop 32).take 32
        finalized_slot := beNat ((output.drop 64).take 8)
        participation := beNat ((output.drop 72).take 2) }) ∧
    parse_step_output stepOutputFixture = .ok {
      finalized_header_root := stepFinalizedHeaderRoot
      execution_state_root := stepExecutionStateRoot
      finalized_slot := 7634848
      participation := 509 } := by
  constructor
  · intro output h
    unfold parse_step_output
    rw [if_neg (by omega)]
  · decide

theorem c4_witness :
    parse_step_output stepOutputFixture = .ok {
      finalized_header_root := stepOutputFixture.take 32
      execution_state_root := (stepOutputFixture.drop 32).take 32
      finalized_slot := beNat ((stepOutputFixture.drop 64).take 8)
      participation := beNat ((stepOutputFixture.drop 72).take 2) } :=
  c4_parse_step_output_layout.1 stepOutputFixture (by decide)

/-- C5: the claim says a buffer shorter than 74 bytes makes
`parse_step_output` fail with a `TruncatedOutput` error; the source has no
such error and instead aborts on out-of-bounds slice indexing, here shown
on a 73-byte buffer. -/
theorem c5_parse_step_output_truncated_aborts :
    parse_step_output (List.replicate 73 0) = .panic := by decide

/-- C6: `parse_rotate_output` interprets every buffer of at most 32 bytes
as a big-endian unsigned integer; but for longer buffers the claimed
`OutputTooLarge` error does not exist in the source, whose
`U256::from_big_endian` asserts and aborts, here shown on 33 bytes. -/
theorem c6_parse_rotate_output_bound :
    (∀ output : List Nat, output.length ≤ 32 →
      parse_rotate_output output = .ok (beNat output)) ∧
    parse_rotate_output (List.replicate 33 0) = .panic := by
  constructor
  · intro output h
    unfold parse_rotate_output
    rw [if_pos h]
  · decide

theorem c6_witness : parse_rotate_output [1, 0] = .ok (beNat [1, 0]) :=
  c6_parse_rotate_output_bound.1 [1, 0] (by decide)

/-- C7: the claim says a buffer shorter than 69 bytes makes
`decode_message` fail with a `TruncatedMessage` error; the source has no
such error and instead aborts on out-of-bounds slice indexing, here shown
on a 68-byte buffer. -/
theorem c7_decode_message_truncated_aborts :
    decode_message (List.replicate 68 0) = .panic := by decide

/-- C8: for every well-formed decimal-string triple the conversion is total
(and, being a function, deterministic); but on a non-numeric coordinate
string the claimed `InvalidFieldElement` error does not exist in the
source, whose `from_str(..).unwrap()` aborts instead. -/
theorem c8_to_proof_total_on_wellformed_aborts_on_bad :
    (∀ p : CircomProof, wellFormedCircom p = true →
      ∃ pr, to_proof p = .ok pr) ∧
    to_proof badCircomProof = .panic := by
  constructor
  · intro p hw
    unfold wellFormedCircom at hw
    simp only [Bool.and_eq_true, beq_iff_eq, List.all_eq_true] at hw
    obtain ⟨⟨⟨⟨⟨⟨ha2, hb2⟩, hc2⟩, hrow⟩, hadec⟩, hcdec⟩, hbdec⟩ := hw
    obtain ⟨a0s, a1s, hpa⟩ := List.length_eq_two.mp ha2
    obtain ⟨r0, r1, hpb⟩ := List.length_eq_two.mp hb2
    obtain ⟨c0s, c1s, hpc⟩ := List.length_eq_two.mp hc2
    obtain ⟨b00s, b01s, hr0⟩ :=
      List.length_eq_two.mp (by simpa using hrow r0 (by rw [hpb]; exact List.mem_cons_self _ _))
    obtain ⟨b10s, b11s, hr1⟩ :=
      List.length_eq_two.mp (by simpa using hrow r1 (by rw [hpb]; simp))
    have hda0 := fpFromStr_isSome_of_decimal bn254FqModulus a0s
      (hadec a0s (by rw [hpa]; simp))
    have hda1 := fpFromStr_isSome_of_decimal bn254FqModulus a1s
      (hadec a1s (by rw [hpa]; simp))
    have hdc0 := fpFromStr_isSome_of_decimal bn254FqModulus c0s
      (hcdec c0s (by rw [hpc]; simp))
    have hdc1 := fpFromStr_isSome_of_decimal bn254FqModulus c1s
      (hcdec c1s (by rw [hpc]; simp))
    have hb00 := fpFromStr_isSome_of_decimal bn254FqModulus b00s
      (by have h4 := hbdec r0 (by rw [hpb]; simp); rw [hr0] at h4; exact h4 b00s (by simp))
    have hb01 := fpFromStr_isSome_of_decimal bn254FqModulus b01s
      (by have h4 := hbdec r0 (by rw [hpb]; simp); rw [hr0] at h4; exact h4 b01s (by simp))
    have hb10 := fpFromStr_isSome_of_decimal bn254FqModulus b10s
      (by have h4 := hbdec r1 (by rw [hpb]; simp); rw [hr1] at h4; exact h4 b10s (by simp))
    have hb11 := fpFromStr_isSome_of_decimal bn254FqModulus b11s
      (by have h4 := hbdec r1 (by rw [hpb]; simp); rw [hr1] at h4; exact h4 b11s (by simp))
    obtain ⟨va0, ea0⟩ := Option.isSome_iff_exists.mp hda0
    obtain ⟨va1, ea1⟩ := Option.isSome_iff_exists.mp hda1
    obtain ⟨vb00, eb00⟩ := Option.isSome_iff_exists.mp hb00
    obtain ⟨vb01, eb01⟩ := Option.isSome_iff_exists.mp hb01
    obtain ⟨vb10, eb10⟩ := Option.isSome_iff_exists.mp hb10
    obtain ⟨vb11, eb11⟩ := Option.isSome_iff_exists.mp hb11
    obtain ⟨vc0, ec0⟩ := Option.isSome_iff_exists.mp hdc0
    obtain ⟨vc1, ec1⟩ := Option.isSome_iff_exists.mp hdc1
    refine ⟨⟨⟨va0, va1, false⟩, ⟨⟨vb00, vb01⟩, ⟨vb10, vb11⟩, false⟩,
      ⟨vc0, vc1, false⟩⟩, ?_⟩
    unfold to_proof
    rw [hpa, hpb, hpc]
    simp only [List.get?]
    rw [hr0, hr1]
    simp only [List.get?]
    rw [ea0, ea1, eb00, eb01, eb10, eb11, ec0, ec1]
  · decide

theorem c8_witness : ∃ pr, to_proof goodCircomProof = .ok pr :=
  c8_to_proof_total_on_wellformed_aborts_on_bad.1 goodCircomProof (by decide)

/-- C9: `decode_message_data` fails with `CannotDecodeMessageData` exactly
when the payload is too short for the three 32-byte head words (i.e. it is
shorter than 96 bytes — for this all-static tuple every present word is
interpretable), and otherwise returns the first word as the recipient and
the second as the big-endian amount, dropping the third (address) word. -/
theorem c9_decode_message_data_words :
    ∀ payload : List Nat,
      (decode_message_data payload = .err .CannotDecodeMessageData ↔
        payload.length < 96) ∧
      (96 ≤ payload.length →
        decode_message_data payload = .ok {
          recipient_address := payload.take 32
          amount := beNat ((payload.drop 32).take 32) }) := by
  intro payload
  constructor
  · by_cases h : payload.length < 96
    · simp [decode_message_data, ethabiDecodeFixedUintAddr, h]
    · simp [decode_message_data, ethabiDecodeFixedUintAddr, h]
  · intro h
    simp [decode_message_data, ethabiDecodeFixedUintAddr, Nat.not_lt.mpr h]

theorem c9_witness :
    decode_message_data (List.replicate 96 7) = .ok {
      recipient_address := (List.replicate 96 7).take 32
      amount := beNat (((List.replicate 96 7).drop 32).take 32) } :=
  (c9_decode_message_data_words (List.replicate 96 7)).2 (by decide)

/-- C10: `parse_step_output` depends only on the first 74 bytes: buffers of
length at least 74 agreeing on bytes [0..74) parse to equal outputs, i.e.
trailing bytes are ignored rather than rejected. -/
theorem c10_parse_step_output_ignores_trailing :
    ∀ b1 b2 : List Nat, 74 ≤ b1.length → 74 ≤ b2.length →
      b1.take 74 = b2.take 74 →
      parse_step_output b1 = parse_step_output b2 := by
  intro b1 b2 h1 h2 hagree
  unfold parse_step_output
  rw [if_neg (by omega), if_neg (by omega)]
  have e0 : b1.take 32 = b2.take 32 := by
    have h3 := congrArg (List.take 32) hagree
    rwa [List.take_take, List.take_take] at h3
  have e1 := take_of_take74_eq hagree 32 32 (by omega)
  have e2 := take_of_take74_eq hagree 64 8 (by omega)
  have e3 := take_of_take74_eq hagree 72 2 (by omega)
  rw [e0, e1, e2, e3]

theorem c10_witness :
    parse_step_output stepOutputFixture =
      parse_step_output (stepOutputFixture ++ [0xaa]) :=
  c10_parse_step_output_ignores_trailing stepOutputFixture
    (stepOutputFixture ++ [0xaa]) (by decide) (by decide) (by decide)

end Avail
